import Mathlib

/-!
Shallow embedding of the stay-validity evaluator replicated across the
booking handlers (api/get-reservation.js second variant,
api/get-reservations.js second variant, api/can-book.js build-booking-link
variant) and the pricing core of api/get-price.js.

Modelling conventions:
* Calendar dates are embedded as `Int` day numbers.  All date comparisons in
  the source are lexicographic on normalized `YYYY-MM-DD` strings, which is
  order-isomorphic to day numbers; `addDays`/`diffDays` become integer
  addition/subtraction.
* A nightly record field that may be missing, `null`, or unparseable is an
  `Option`: `jsInt`/`jsNum` mirror the source helpers `toInt`/`toNum`,
  which substitute a default for missing or non-numeric values.
* Rates are rationals (`ℚ`), integer fields are `Int`, flags are the
  truthiness of the corresponding JS field.
-/

/-- One entry of `roomRateDetailed` as consumed by the handlers: field values
after JS coercion, with `none` standing for missing / null / NaN. -/
structure NightlyRecord where
  date : Int
  rate : Option ℚ
  roomsAvailable : Option Int
  minLos : Option Int
  closedToArrival : Bool
  closedToDeparture : Bool
deriving DecidableEq

/-- The verdict envelope of api/get-reservations.js (second variant):
`{ valid, minimumNightsRequiredToStay, reason }`; the valid branch carries no
reason, embedded as the empty string. -/
structure Verdict where
  valid : Bool
  minimumNightsRequiredToStay : Int
  reason : String
deriving DecidableEq

/-- Source helper `toInt(v, d)`: parseInt with default on missing/NaN. -/
def jsInt (v : Option Int) (d : Int) : Int := v.getD d

/-- Source helper `toNum(v, d)`: Number(...) with default on missing/NaN. -/
def jsNum (v : Option ℚ) (d : ℚ) : ℚ := v.getD d

/-- Source helper `diffDays(a, b)`: whole days from `a` to `b`. -/
def diffDays (a b : Int) : Int := b - a

/-- Source helper `addDays(d, n)`. -/
def addDays (d n : Int) : Int := d + n

/-- `details.find(d => d?.date === startDate)` — the arrival-day record. -/
def arrivalRec (startDate : Int) (details : List NightlyRecord) :
    Option NightlyRecord :=
  details.find? (fun d => decide (d.date = startDate))

/-- `inferMinLos(details, arrival)` from api/get-price.js / api/can-book.js
(the same computation is inlined in the reservation handlers): the arrival
record's positive `minLos` if any, else the maximum positive `minLos` across
all of `details`, else 1. -/
def inferMinLos (details : List NightlyRecord)
    (arrival : Option NightlyRecord) : Int :=
  let a := jsInt (arrival.bind NightlyRecord.minLos) 0
  if 0 < a then a
  else
    let mins := (details.map (fun d => jsInt d.minLos 0)).filter
      (fun n => decide (0 < n))
    match mins with
    | [] => 1
    | m :: rest => rest.foldl max m

/-- `details.filter(d => d?.date >= startDate && d?.date <= lastNight)` with
`lastNight = addDays(endDate, -1)` — the in-window records of the
reservation handlers. -/
def stayWindow (startDate endDate : Int) (details : List NightlyRecord) :
    List NightlyRecord :=
  details.filter
    (fun d => decide (startDate ≤ d.date) && decide (d.date ≤ addDays endDate (-1)))

/-- The defensive departure-closure OR of the handlers: the `closedToDeparture`
flag of the first record dated `endDate`, or of the first record dated the
last occupied night. -/
def departureFlag (endDate : Int) (details : List NightlyRecord) : Bool :=
  ((details.find? (fun d => decide (d.date = endDate))).map
      NightlyRecord.closedToDeparture).getD false
  || ((details.find? (fun d => decide (d.date = addDays endDate (-1)))).map
      NightlyRecord.closedToDeparture).getD false

def incompleteReason : String :=
  "No hay datos de tarifa para todas las noches solicitadas."

def minStayReason (m : Int) : String :=
  "La estadía mínima es de " ++ toString m ++ " noches."

def arrivalClosedReason : String :=
  "No se permite llegada en la fecha seleccionada."

def departureClosedReason : String :=
  "No se permite salida en la fecha seleccionada."

def noAvailabilityReason : String :=
  "No hay disponibilidad en una o más noches."

def noRateReason : String :=
  "No hay tarifa publicada para una o más noches."

def badDateOrderReason : String :=
  "Fechas inválidas: el check-out debe ser posterior al check-in."

/-- The rule chain of api/get-reservations.js (second variant), lines
101-184: completeness, minimum stay, closed-to-arrival, closed-to-departure,
per-night availability, per-night rate, else valid.  The same chain, in the
same order, appears in api/get-reservation.js (second variant) and
api/can-book.js (build-booking-link variant). -/
def evaluate (startDate endDate : Int) (details : List NightlyRecord) :
    Verdict :=
  let nights := diffDays startDate endDate
  let arrival := arrivalRec startDate details
  let minLos := inferMinLos details arrival
  let window := stayWindow startDate endDate details
  if (window.length : Int) < nights then
    { valid := false
      minimumNightsRequiredToStay := if minLos = 0 then 1 else minLos
      reason := incompleteReason }
  else if nights < minLos then
    { valid := false, minimumNightsRequiredToStay := minLos
      reason := minStayReason minLos }
  else if (arrival.map NightlyRecord.closedToArrival).getD false then
    { valid := false, minimumNightsRequiredToStay := minLos
      reason := arrivalClosedReason }
  else if departureFlag endDate details then
    { valid := false, minimumNightsRequiredToStay := minLos
      reason := departureClosedReason }
  else if window.any (fun d => decide (jsInt d.roomsAvailable 0 = 0)) then
    { valid := false, minimumNightsRequiredToStay := minLos
      reason := noAvailabilityReason }
  else if window.any (fun d => decide (jsNum d.rate 0 ≤ 0)) then
    { valid := false, minimumNightsRequiredToStay := minLos
      reason := noRateReason }
  else
    { valid := true, minimumNightsRequiredToStay := minLos, reason := "" }

/-- The handler pipeline after date normalization: the `nights <= 0` guard of
api/get-reservations.js lines 65-71 runs before the upstream fetch; the
fetched `roomRateDetailed` list only feeds the later `evaluate` stage. -/
def handlerVerdict (startDate endDate : Int)
    (details : List NightlyRecord) : Verdict :=
  if diffDays startDate endDate ≤ 0 then
    { valid := false, minimumNightsRequiredToStay := 1
      reason := badDateOrderReason }
  else
    evaluate startDate endDate details

/-- A rate plan as consumed by `computeWindowTotal` in api/get-price.js:
the aggregate `roomRate` and the nightly detail list. -/
structure RatePlan where
  roomRate : Option ℚ
  roomRateDetailed : List NightlyRecord
deriving DecidableEq

/-- The `{ ok, amount }` result of `computeWindowTotal`. -/
structure WindowTotal where
  ok : Bool
  amount : ℚ
deriving DecidableEq

/-- The price handler's window `details.filter(d => d?.date >= startDate &&
d?.date <= last)` with `last = addDays(startDate, nights - 1)`. -/
def priceWindow (startDate endDate : Int) (details : List NightlyRecord) :
    List NightlyRecord :=
  details.filter
    (fun d => decide (startDate ≤ d.date)
      && decide (d.date ≤ addDays startDate (diffDays startDate endDate - 1)))

/-- `computeWindowTotal(plan, startDate, endDate)` from api/get-price.js:
the same rule chain (with `roomsAvailable <= 0` in place of `=== 0`),
then the aggregate `roomRate` if positive, else the sum of nightly rates. -/
def computeWindowTotal (plan : RatePlan) (startDate endDate : Int) :
    WindowTotal :=
  let nights := diffDays startDate endDate
  let details := plan.roomRateDetailed
  if details.length = 0 then ⟨false, 0⟩
  else
    let last := addDays startDate (nights - 1)
    let window := priceWindow startDate endDate details
    if (window.length : Int) < nights then ⟨false, 0⟩
    else
      let arrival := arrivalRec startDate details
      let minLos := inferMinLos details arrival
      if nights < minLos then ⟨false, 0⟩
      else if (arrival.map NightlyRecord.closedToArrival).getD false then
        ⟨false, 0⟩
      else if ((details.find? (fun d => decide (d.date = endDate))).map
            NightlyRecord.closedToDeparture).getD false
          || ((details.find? (fun d => decide (d.date = last))).map
            NightlyRecord.closedToDeparture).getD false then
        ⟨false, 0⟩
      else if window.any (fun d => decide (jsInt d.roomsAvailable 0 ≤ 0)) then
        ⟨false, 0⟩
      else if window.any (fun d => decide (jsNum d.rate 0 ≤ 0)) then
        ⟨false, 0⟩
      else
        let amount := jsNum plan.roomRate 0
        ⟨true, if amount ≤ 0
          then window.foldl (fun s d => s + jsNum d.rate 0) 0
          else amount⟩

/-- The failure condition of rule `i` of the evaluator's chain, in the order
the spec lists them: 0 completeness, 1 minimum stay, 2 closed-to-arrival,
3 closed-to-departure, 4 per-night availability, 5 per-night rate.  Each
condition is the one the source tests. -/
def ruleFailB (i : Nat) (startDate endDate : Int)
    (details : List NightlyRecord) : Bool :=
  match i with
  | 0 => decide (((stayWindow startDate endDate details).length : Int) <
      diffDays startDate endDate)
  | 1 => decide (diffDays startDate endDate <
      inferMinLos details (arrivalRec startDate details))
  | 2 => ((arrivalRec startDate details).map
      NightlyRecord.closedToArrival).getD false
  | 3 => departureFlag endDate details
  | 4 => (stayWindow startDate endDate details).any
      (fun d => decide (jsInt d.roomsAvailable 0 = 0))
  | 5 => (stayWindow startDate endDate details).any
      (fun d => decide (jsNum d.rate 0 ≤ 0))
  | _ => false

/-- The invalid verdict rule `i` produces when it is the one that fails. -/
def ruleVerdict (i : Nat) (startDate _endDate : Int)
    (details : List NightlyRecord) : Verdict :=
  let minLos := inferMinLos details (arrivalRec startDate details)
  match i with
  | 0 => ⟨false, if minLos = 0 then 1 else minLos, incompleteReason⟩
  | 1 => ⟨false, minLos, minStayReason minLos⟩
  | 2 => ⟨false, minLos, arrivalClosedReason⟩
  | 3 => ⟨false, minLos, departureClosedReason⟩
  | 4 => ⟨false, minLos, noAvailabilityReason⟩
  | _ => ⟨false, minLos, noRateReason⟩

/-- Modelled from the spec's algorithm description ("ordered rule evaluation —
first failing rule wins, short-circuit"): scan the rules in the fixed order
and return the verdict of the first one that fails, else the valid verdict. -/
def specFirstFailingVerdict (startDate endDate : Int)
    (details : List NightlyRecord) : Verdict :=
  match ([0, 1, 2, 3, 4, 5] : List Nat).find?
      (fun i => ruleFailB i startDate endDate details) with
  | some i => ruleVerdict i startDate endDate details
  | none => ⟨true, inferMinLos details (arrivalRec startDate details), ""⟩

/-- Modelled from the claim's wording of the minLos rule: the arrival
record's positive `minLos` if any, otherwise the maximum over the positive
`minLos` values of the nights in range `[checkin, checkout)` when any
exists, otherwise 1.  (The source's `inferMinLos` instead takes that
fallback maximum across all records, in-range or not.) -/
def specMinLosClaim (startDate endDate : Int)
    (details : List NightlyRecord) : Int :=
  let a := jsInt ((arrivalRec startDate details).bind NightlyRecord.minLos) 0
  if 0 < a then a
  else
    ((((stayWindow startDate endDate details).map
        (fun d => jsInt d.minLos 0)).filter (fun n => decide (0 < n))).max?).getD 1

/-- The amended claim's minLos formula: the arrival record's positive
`minLos` if any, otherwise the maximum positive `minLos` across ALL records
of the set (in-range or not), otherwise 1. -/
def amendedMinLosSpec (startDate : Int) (details : List NightlyRecord) : Int :=
  let a := jsInt ((arrivalRec startDate details).bind NightlyRecord.minLos) 0
  if 0 < a then a
  else
    (((details.map (fun d => jsInt d.minLos 0)).filter
      (fun n => decide (0 < n))).max?).getD 1

example : evaluate 0 2
    [⟨0, some 100, some 3, some 2, false, false⟩,
     ⟨1, some 100, some 3, some 2, false, false⟩] =
    ⟨true, 2, ""⟩ := by decide

example : handlerVerdict 5 5 [⟨5, some 1, some 1, none, false, false⟩] =
    ⟨false, 1, badDateOrderReason⟩ := by decide

example : computeWindowTotal ⟨none, [⟨0, some 30, some 1, none, false, false⟩]⟩
    0 1 = ⟨true, 30⟩ := by
  norm_num [computeWindowTotal, priceWindow, arrivalRec, inferMinLos,
    departureFlag, jsNum, jsInt, diffDays, addDays, List.find?, List.filter]

/-! ### Shared lemmas -/

theorem le_foldl_max (l : List Int) (a : Int) : a ≤ l.foldl max a := by
  induction l generalizing a with
  | nil => simp
  | cons b t ih => exact le_trans (le_max_left a b) (ih (max a b))

theorem one_le_inferMinLos (details : List NightlyRecord)
    (arrival : Option NightlyRecord) : 1 ≤ inferMinLos details arrival := by
  simp only [inferMinLos]
  split
  · omega
  · rcases hm : (details.map (fun d => jsInt d.minLos 0)).filter
        (fun n => decide (0 < n)) with _ | ⟨m, rest⟩
    · simp [hm]
    · have hmem : m ∈ (details.map (fun d => jsInt d.minLos 0)).filter
          (fun n => decide (0 < n)) := hm ▸ List.mem_cons_self m rest
      have hpos : 0 < m := by
        have := List.of_mem_filter hmem
        simpa using this
      simp only [hm]
      have := le_foldl_max rest m
      omega

theorem inferMinLos_ne_zero (details : List NightlyRecord)
    (arrival : Option NightlyRecord) : ¬ inferMinLos details arrival = 0 := by
  have := one_le_inferMinLos details arrival
  omega

theorem find_date_eq_some (details : List NightlyRecord) (t : Int)
    (hnodup : (details.map NightlyRecord.date).Nodup)
    {r : NightlyRecord} (hr : r ∈ details) (hd : r.date = t) :
    details.find? (fun d => decide (d.date = t)) = some r := by
  have hsome : (details.find? (fun d => decide (d.date = t))).isSome := by
    rw [List.find?_isSome]
    exact ⟨r, hr, by simp [hd]⟩
  obtain ⟨r₀, h₀⟩ := Option.isSome_iff_exists.mp hsome
  have hmem := List.mem_of_find?_eq_some h₀
  have hdate : r₀.date = t := by simpa using List.find?_some h₀
  have heq : r₀ = r :=
    List.inj_on_of_nodup_map hnodup hmem hr (by rw [hdate, hd])
  rw [h₀, heq]

theorem departureFlag_iff (endDate : Int) (details : List NightlyRecord)
    (hnodup : (details.map NightlyRecord.date).Nodup) :
    departureFlag endDate details = true ↔
      ∃ r ∈ details, (r.date = endDate ∨ r.date = addDays endDate (-1)) ∧
        r.closedToDeparture = true := by
  constructor
  · intro h
    rcases Bool.or_eq_true_iff.mp (by simpa [departureFlag] using h) with h1 | h1
    · rcases ho : details.find? (fun d => decide (d.date = endDate)) with _ | r
      · rw [ho] at h1; simp at h1
      · rw [ho] at h1
        refine ⟨r, List.mem_of_find?_eq_some ho, Or.inl ?_, by simpa using h1⟩
        simpa using List.find?_some ho
    · rcases ho : details.find?
          (fun d => decide (d.date = addDays endDate (-1))) with _ | r
      · rw [ho] at h1; simp at h1
      · rw [ho] at h1
        refine ⟨r, List.mem_of_find?_eq_some ho, Or.inr ?_, by simpa using h1⟩
        simpa using List.find?_some ho
  · rintro ⟨r, hr, hdate | hdate, hflag⟩
    · have := find_date_eq_some details endDate hnodup hr hdate
      simp [departureFlag, this, hflag]
    · have := find_date_eq_some details (addDays endDate (-1)) hnodup hr hdate
      simp [departureFlag, this, hflag]

/-! ### Claim theorems -/

/-- C7: for every request whose checkout is on or before its checkin
(`nights <= 0`), the handler returns the invalid date-order verdict for
every nightly-record set whatsoever — the verdict is independent of the
records, which are never consulted. -/
theorem bad_date_order_short_circuits (startDate endDate : Int)
    (h : diffDays startDate endDate ≤ 0) (details : List NightlyRecord) :
    handlerVerdict startDate endDate details =
      ⟨false, 1, badDateOrderReason⟩ := by
  simp [handlerVerdict, h]

/-- Witness for C7 at a concrete input: an inverted range with a non-empty
record set still yields the date-order verdict. -/
theorem bad_date_order_short_circuits_witness :
    diffDays 7 5 ≤ 0 ∧
    handlerVerdict 7 5 [⟨5, some 100, some 2, some 3, true, true⟩] =
      ⟨false, 1, badDateOrderReason⟩ :=
  ⟨by decide, bad_date_order_short_circuits 7 5 (by decide) _⟩

/-- C5 counterexample: a record set with two records for the same in-window
date and no record at all for night 1 of the stay `[0, 2)` is NOT rejected
as incomplete — the evaluator returns a fully valid verdict, because the
completeness rule only counts in-window records. -/
theorem completeness_missing_night_cex :
    (∀ r ∈ ([⟨0, some 100, some 1, none, false, false⟩,
             ⟨0, some 100, some 1, none, false, false⟩] :
        List NightlyRecord), r.date ≠ 1) ∧
    (0 : Int) ≤ 1 ∧ (1 : Int) < 2 ∧
    evaluate 0 2 [⟨0, some 100, some 1, none, false, false⟩,
                  ⟨0, some 100, some 1, none, false, false⟩] =
      ⟨true, 1, ""⟩ := by decide

/-- C5 amended: whenever the COUNT of records dated within
`[checkin, checkout)` is below the number of nights, the evaluator returns
the incomplete-rate-data verdict, regardless of every other field of the
records — no later rule can produce a verdict. -/
theorem incomplete_window_count_verdict (startDate endDate : Int)
    (details : List NightlyRecord)
    (hlt : ((stayWindow startDate endDate details).length : Int) <
      diffDays startDate endDate) :
    evaluate startDate endDate details =
      ⟨false,
        if inferMinLos details (arrivalRec startDate details) = 0 then 1
        else inferMinLos details (arrivalRec startDate details),
        incompleteReason⟩ := by
  simp only [evaluate]
  rw [if_pos hlt]

/-- Witness for C5's amended claim: one night of the two-night stay is
missing, so the verdict is the incomplete one even though the present
record passes every later rule. -/
theorem incomplete_window_count_verdict_witness :
    ((stayWindow 0 2 [⟨0, some 100, some 5, none, false, false⟩]).length : Int)
        < diffDays 0 2 ∧
    evaluate 0 2 [⟨0, some 100, some 5, none, false, false⟩] =
      ⟨false,
        if inferMinLos [⟨0, some 100, some 5, none, false, false⟩]
            (arrivalRec 0 [⟨0, some 100, some 5, none, false, false⟩]) = 0
        then 1
        else inferMinLos [⟨0, some 100, some 5, none, false, false⟩]
            (arrivalRec 0 [⟨0, some 100, some 5, none, false, false⟩]),
        incompleteReason⟩ :=
  ⟨by decide, incomplete_window_count_verdict 0 2 _ (by decide)⟩

/-- C9: the completeness check of `computeWindowTotal` compares the count of
in-window records against the number of nights, not the set of distinct
covered dates: a plan holding two records for date 10 and none for date 11
is not reported incomplete for the stay `[10, 12)`; the evaluation proceeds
through all later rules and prices the stay. -/
theorem duplicate_date_completeness_by_count :
    computeWindowTotal
        ⟨none, [⟨10, some 50, some 2, none, false, false⟩,
                ⟨10, some 50, some 2, none, false, false⟩]⟩ 10 12 =
      ⟨true, 100⟩ ∧
    (∀ r ∈ ([⟨10, some 50, some 2, none, false, false⟩,
             ⟨10, some 50, some 2, none, false, false⟩] :
        List NightlyRecord), r.date ≠ 11) := by
  constructor
  · norm_num [computeWindowTotal, priceWindow, arrivalRec, inferMinLos,
      departureFlag, jsNum, jsInt, diffDays, addDays, List.find?, List.filter]
  · decide

/-- C3 counterexample: for the stay `[0, 2)` (2 nights) over records whose
in-range nights carry no positive `minLos` but whose out-of-range checkout
record carries `minLos = 5`, the claim's formula gives 1 while the evaluator
uses 5: it reports the stay invalid for minimum stay and returns
`minimumNightsRequiredToStay = 5`. -/
theorem minLos_range_restriction_cex :
    (evaluate 0 2 [⟨0, some 100, some 1, none, false, false⟩,
                   ⟨1, some 100, some 1, none, false, false⟩,
                   ⟨2, some 100, some 1, some 5, false, false⟩]).minimumNightsRequiredToStay = 5 ∧
    specMinLosClaim 0 2 [⟨0, some 100, some 1, none, false, false⟩,
                         ⟨1, some 100, some 1, none, false, false⟩,
                         ⟨2, some 100, some 1, some 5, false, false⟩] = 1 ∧
    (evaluate 0 2 [⟨0, some 100, some 1, none, false, false⟩,
                   ⟨1, some 100, some 1, none, false, false⟩,
                   ⟨2, some 100, some 1, some 5, false, false⟩]).valid = false ∧
    ¬ diffDays 0 2 < specMinLosClaim 0 2
        [⟨0, some 100, some 1, none, false, false⟩,
         ⟨1, some 100, some 1, none, false, false⟩,
         ⟨2, some 100, some 1, some 5, false, false⟩] := by decide

/-- C3 amended: the effective minimum length of stay equals the checkin-date
record's `minLos` when positive, otherwise the maximum over the positive
`minLos` values of ALL records in the set (including records dated outside
`[checkin, checkout)`), otherwise 1; and whenever `nights` is below this
value and the completeness rule passes, the verdict is invalid with a reason
containing the numeric minimum. -/
theorem inferMinLos_amended_spec (startDate endDate : Int)
    (details : List NightlyRecord)
    (hcomp : diffDays startDate endDate ≤
      ((stayWindow startDate endDate details).length : Int)) :
    inferMinLos details (arrivalRec startDate details) =
      amendedMinLosSpec startDate details ∧
    (diffDays startDate endDate <
        inferMinLos details (arrivalRec startDate details) →
      evaluate startDate endDate details =
        ⟨false, inferMinLos details (arrivalRec startDate details),
          minStayReason (inferMinLos details (arrivalRec startDate details))⟩ ∧
      ∃ pre post, (evaluate startDate endDate details).reason =
        pre ++ toString
          (inferMinLos details (arrivalRec startDate details)) ++ post) := by
  constructor
  · by_cases h : 0 < jsInt ((arrivalRec startDate details).bind
        NightlyRecord.minLos) 0
    · simp [inferMinLos, amendedMinLosSpec, h]
    · simp only [inferMinLos, amendedMinLosSpec, if_neg h]
      rcases hm : (details.map (fun d => jsInt d.minLos 0)).filter
          (fun n => decide (0 < n)) with _ | ⟨m, rest⟩ <;>
        simp [hm, List.max?]
  · intro hlt
    have hev : evaluate startDate endDate details =
        ⟨false, inferMinLos details (arrivalRec startDate details),
          minStayReason (inferMinLos details (arrivalRec startDate details))⟩ := by
      simp only [evaluate]
      rw [if_neg (not_lt.mpr hcomp), if_pos hlt]
    exact ⟨hev, "La estadía mínima es de ", " noches.", by rw [hev]; rfl⟩

/-- Witness for C3's amended claim at the counterexample input: the
equality of the two minLos computations and, since `nights = 2 < 5`, the
invalid minimum-stay verdict with the numeric minimum in the reason. -/
theorem inferMinLos_amended_spec_witness :
    diffDays 0 2 ≤
      ((stayWindow 0 2 [⟨0, some 100, some 1, none, false, false⟩,
                        ⟨1, some 100, some 1, none, false, false⟩,
                        ⟨2, some 100, some 1, some 5, false, false⟩]).length : Int) ∧
    (inferMinLos [⟨0, some 100, some 1, none, false, false⟩,
                  ⟨1, some 100, some 1, none, false, false⟩,
                  ⟨2, some 100, some 1, some 5, false, false⟩]
        (arrivalRec 0 [⟨0, some 100, some 1, none, false, false⟩,
                       ⟨1, some 100, some 1, none, false, false⟩,
                       ⟨2, some 100, some 1, some 5, false, false⟩]) =
      amendedMinLosSpec 0 [⟨0, some 100, some 1, none, false, false⟩,
                           ⟨1, some 100, some 1, none, false, false⟩,
                           ⟨2, some 100, some 1, some 5, false, false⟩] ∧
    (diffDays 0 2 <
        inferMinLos [⟨0, some 100, some 1, none, false, false⟩,
                     ⟨1, some 100, some 1, none, false, false⟩,
                     ⟨2, some 100, some 1, some 5, false, false⟩]
          (arrivalRec 0 [⟨0, some 100, some 1, none, false, false⟩,
                         ⟨1, some 100, some 1, none, false, false⟩,
                         ⟨2, some 100, some 1, some 5, false, false⟩]) →
      evaluate 0 2 [⟨0, some 100, some 1, none, false, false⟩,
                    ⟨1, some 100, some 1, none, false, false⟩,
                    ⟨2, some 100, some 1, some 5, false, false⟩] =
        ⟨false, inferMinLos [⟨0, some 100, some 1, none, false, false⟩,
                             ⟨1, some 100, some 1, none, false, false⟩,
                             ⟨2, some 100, some 1, some 5, false, false⟩]
            (arrivalRec 0 [⟨0, some 100, some 1, none, false, false⟩,
                           ⟨1, some 100, some 1, none, false, false⟩,
                           ⟨2, some 100, some 1, some 5, false, false⟩]),
          minStayReason (inferMinLos
            [⟨0, some 100, some 1, none, false, false⟩,
             ⟨1, some 100, some 1, none, false, false⟩,
             ⟨2, some 100, some 1, some 5, false, false⟩]
            (arrivalRec 0 [⟨0, some 100, some 1, none, false, false⟩,
                           ⟨1, some 100, some 1, none, false, false⟩,
                           ⟨2, some 100, some 1, some 5, false, false⟩]))⟩ ∧
      ∃ pre post,
        (evaluate 0 2 [⟨0, some 100, some 1, none, false, false⟩,
                       ⟨1, some 100, some 1, none, false, false⟩,
                       ⟨2, some 100, some 1, some 5, false, false⟩]).reason =
          pre ++ toString (inferMinLos
            [⟨0, some 100, some 1, none, false, false⟩,
             ⟨1, some 100, some 1, none, false, false⟩,
             ⟨2, some 100, some 1, some 5, false, false⟩]
            (arrivalRec 0 [⟨0, some 100, some 1, none, false, false⟩,
                           ⟨1, some 100, some 1, none, false, false⟩,
                           ⟨2, some 100, some 1, some 5, false, false⟩])) ++ post)) :=
  ⟨by decide, inferMinLos_amended_spec 0 2 _ (by decide)⟩

/-- C6: when every earlier rule passes, a single in-window night whose rate
is missing, null, zero, or negative (all read as `<= 0` by `toNum`) makes
the verdict the invalid no-published-rate one, regardless of the rates of
all other nights. -/
theorem zero_rate_night_invalidates (startDate endDate : Int)
    (details : List NightlyRecord)
    (hcomp : diffDays startDate endDate ≤
      ((stayWindow startDate endDate details).length : Int))
    (hmin : inferMinLos details (arrivalRec startDate details) ≤
      diffDays startDate endDate)
    (hcta : ((arrivalRec startDate details).map
      NightlyRecord.closedToArrival).getD false = false)
    (hdep : departureFlag endDate details = false)
    (havail : ∀ r ∈ stayWindow startDate endDate details,
      jsInt r.roomsAvailable 0 ≠ 0)
    (hrate : ∃ r ∈ stayWindow startDate endDate details, jsNum r.rate 0 ≤ 0) :
    evaluate startDate endDate details =
      ⟨false, inferMinLos details (arrivalRec startDate details),
        noRateReason⟩ := by
  have havail' : (stayWindow startDate endDate details).any
      (fun d => decide (jsInt d.roomsAvailable 0 = 0)) = false := by
    simp only [List.any_eq_false, decide_eq_true_eq]
    exact havail
  have hrate' : (stayWindow startDate endDate details).any
      (fun d => decide (jsNum d.rate 0 ≤ 0)) = true := by
    simp only [List.any_eq_true, decide_eq_true_eq]
    exact hrate
  simp only [evaluate]
  rw [if_neg (not_lt.mpr hcomp), if_neg (not_lt.mpr hmin),
    if_neg (by simp [hcta]), if_neg (by simp [hdep]),
    if_neg (by simp [havail']), if_pos hrate']

/-- Witness for C6: a two-night stay where the first night is priced and
available but the second night's rate is 0: the verdict is the
no-published-rate one. -/
theorem zero_rate_night_invalidates_witness :
    diffDays 0 2 ≤
      ((stayWindow 0 2 [⟨0, some 80, some 2, none, false, false⟩,
                        ⟨1, some 0, some 2, none, false, false⟩]).length : Int) ∧
    evaluate 0 2 [⟨0, some 80, some 2, none, false, false⟩,
                  ⟨1, some 0, some 2, none, false, false⟩] =
      ⟨false,
        inferMinLos [⟨0, some 80, some 2, none, false, false⟩,
                     ⟨1, some 0, some 2, none, false, false⟩]
          (arrivalRec 0 [⟨0, some 80, some 2, none, false, false⟩,
                         ⟨1, some 0, some 2, none, false, false⟩]),
        noRateReason⟩ :=
  ⟨by decide, zero_rate_night_invalidates 0 2 _ (by decide) (by decide)
    (by decide) (by decide) (by decide) (by decide)⟩

theorem window_length_of_complete (startDate endDate : Int)
    (details : List NightlyRecord)
    (hcomplete : ∀ day ∈ Finset.Ico startDate endDate,
      ∃ r ∈ details, r.date = day) :
    diffDays startDate endDate ≤
      ((stayWindow startDate endDate details).length : Int) := by
  have hsub : Finset.Ico startDate endDate ⊆
      ((stayWindow startDate endDate details).map
        NightlyRecord.date).toFinset := by
    intro day hday
    obtain ⟨r, hr, hrd⟩ := hcomplete day hday
    rw [Finset.mem_Ico] at hday
    rw [List.mem_toFinset]
    refine List.mem_map.mpr ⟨r, ?_, hrd⟩
    rw [stayWindow, List.mem_filter]
    refine ⟨hr, ?_⟩
    simp only [Bool.and_eq_true, decide_eq_true_eq, addDays]
    omega
  have hcard : (Finset.Ico startDate endDate).card ≤
      (stayWindow startDate endDate details).length :=
    calc (Finset.Ico startDate endDate).card
        ≤ ((stayWindow startDate endDate details).map
            NightlyRecord.date).toFinset.card := Finset.card_le_card hsub
      _ ≤ ((stayWindow startDate endDate details).map
            NightlyRecord.date).length := List.toFinset_card_le _
      _ = (stayWindow startDate endDate details).length := List.length_map _ _
  rw [Int.card_Ico] at hcard
  simp only [diffDays]
  omega

/-- C2: when every night of the stay has a record, the computed minLos does
not exceed the number of nights, no closure flag is set on any
checkin-date, checkout-date or last-night record, and every in-window
record has positive availability and rate, the evaluator returns
`valid = true` with `minimumNightsRequiredToStay` equal to the computed
minLos. -/
theorem evaluate_valid_of_all_rules_pass (startDate endDate : Int)
    (details : List NightlyRecord)
    (_hn : 0 < diffDays startDate endDate)
    (hcomplete : ∀ day ∈ Finset.Ico startDate endDate,
      ∃ r ∈ details, r.date = day)
    (hmin : inferMinLos details (arrivalRec startDate details) ≤
      diffDays startDate endDate)
    (hcta : ∀ r ∈ details, r.date = startDate → r.closedToArrival = false)
    (hctd : ∀ r ∈ details,
      (r.date = endDate ∨ r.date = addDays endDate (-1)) →
      r.closedToDeparture = false)
    (havail : ∀ r ∈ details, startDate ≤ r.date →
      r.date ≤ addDays endDate (-1) → 0 < jsInt r.roomsAvailable 0)
    (hrate : ∀ r ∈ details, startDate ≤ r.date →
      r.date ≤ addDays endDate (-1) → 0 < jsNum r.rate 0) :
    evaluate startDate endDate details =
      ⟨true, inferMinLos details (arrivalRec startDate details), ""⟩ := by
  have hlen := window_length_of_complete startDate endDate details hcomplete
  have hcta' : ((arrivalRec startDate details).map
      NightlyRecord.closedToArrival).getD false = false := by
    rcases ha : arrivalRec startDate details with _ | r₀
    · simp
    · rw [arrivalRec] at ha
      have hmem := List.mem_of_find?_eq_some ha
      have hdate : r₀.date = startDate := by simpa using List.find?_some ha
      simp [hcta r₀ hmem hdate]
  have hdep' : departureFlag endDate details = false := by
    simp only [departureFlag, Bool.or_eq_false_iff]
    constructor
    · rcases ho : details.find? (fun d => decide (d.date = endDate)) with _ | r
      · simp [ho]
      · have hmem := List.mem_of_find?_eq_some ho
        have hdate : r.date = endDate := by simpa using List.find?_some ho
        simp [ho, hctd r hmem (Or.inl hdate)]
    · rcases ho : details.find?
          (fun d => decide (d.date = addDays endDate (-1))) with _ | r
      · simp [ho]
      · have hmem := List.mem_of_find?_eq_some ho
        have hdate : r.date = addDays endDate (-1) := by
          simpa using List.find?_some ho
        simp [ho, hctd r hmem (Or.inr hdate)]
  have havail' : (stayWindow startDate endDate details).any
      (fun d => decide (jsInt d.roomsAvailable 0 = 0)) = false := by
    simp only [List.any_eq_false, decide_eq_true_eq]
    intro r hr
    rw [stayWindow, List.mem_filter] at hr
    obtain ⟨hrm, hb⟩ := hr
    simp only [Bool.and_eq_true, decide_eq_true_eq] at hb
    have := havail r hrm hb.1 hb.2
    omega
  have hrate' : (stayWindow startDate endDate details).any
      (fun d => decide (jsNum d.rate 0 ≤ 0)) = false := by
    simp only [List.any_eq_false, decide_eq_true_eq]
    intro r hr
    rw [stayWindow, List.mem_filter] at hr
    obtain ⟨hrm, hb⟩ := hr
    simp only [Bool.and_eq_true, decide_eq_true_eq] at hb
    have := hrate r hrm hb.1 hb.2
    exact not_le.mpr this
  simp only [evaluate]
  rw [if_neg (not_lt.mpr hlen), if_neg (not_lt.mpr hmin),
    if_neg (by simp [hcta']), if_neg (by simp [hdep']),
    if_neg (by simp [havail']), if_neg (by simp [hrate'])]

/-- Witness for C2 at the spec's own example (day numbers for 2025-10-17
and 2025-10-19, two nights, `minLos = 2`, three rooms, rate 100, no
closures): the verdict is valid with two required nights. -/
theorem evaluate_valid_of_all_rules_pass_witness :
    0 < diffDays 0 2 ∧
    evaluate 0 2 [⟨0, some 100, some 3, some 2, false, false⟩,
                  ⟨1, some 100, some 3, some 2, false, false⟩] =
      ⟨true, inferMinLos [⟨0, some 100, some 3, some 2, false, false⟩,
                          ⟨1, some 100, some 3, some 2, false, false⟩]
        (arrivalRec 0 [⟨0, some 100, some 3, some 2, false, false⟩,
                       ⟨1, some 100, some 3, some 2, false, false⟩]), ""⟩ :=
  ⟨by decide,
    evaluate_valid_of_all_rules_pass 0 2 _ (by decide) (by decide)
      (by decide) (by decide) (by decide) (by decide) (by decide)⟩

/-- C4: with distinct record dates and the completeness, minimum-stay and
closed-to-arrival rules passing, the evaluator returns the invalid
departure-closure verdict exactly when the checkout-date record or the
last-night record has `closedToDeparture` set; otherwise no
departure-closure verdict is produced. -/
theorem departure_closure_rule_iff (startDate endDate : Int)
    (details : List NightlyRecord)
    (hnodup : (details.map NightlyRecord.date).Nodup)
    (hcomp : diffDays startDate endDate ≤
      ((stayWindow startDate endDate details).length : Int))
    (hmin : inferMinLos details (arrivalRec startDate details) ≤
      diffDays startDate endDate)
    (hcta : ((arrivalRec startDate details).map
      NightlyRecord.closedToArrival).getD false = false) :
    ((∃ r ∈ details, (r.date = endDate ∨ r.date = addDays endDate (-1)) ∧
        r.closedToDeparture = true) →
      evaluate startDate endDate details =
        ⟨false, inferMinLos details (arrivalRec startDate details),
          departureClosedReason⟩) ∧
    ((¬ ∃ r ∈ details, (r.date = endDate ∨ r.date = addDays endDate (-1)) ∧
        r.closedToDeparture = true) →
      (evaluate startDate endDate details).reason ≠ departureClosedReason) := by
  constructor
  · intro hex
    have hflag : departureFlag endDate details = true :=
      (departureFlag_iff endDate details hnodup).mpr hex
    simp only [evaluate]
    rw [if_neg (not_lt.mpr hcomp), if_neg (not_lt.mpr hmin),
      if_neg (by simp [hcta]), if_pos (by simp [hflag])]
  · intro hnex
    have hflag : departureFlag endDate details = false := by
      rcases h : departureFlag endDate details with _ | _
      · rfl
      · exact absurd ((departureFlag_iff endDate details hnodup).mp h) hnex
    simp only [evaluate]
    rw [if_neg (not_lt.mpr hcomp), if_neg (not_lt.mpr hmin),
      if_neg (by simp [hcta]), if_neg (by simp [hflag])]
    have h1 : noAvailabilityReason ≠ departureClosedReason := by decide
    have h2 : noRateReason ≠ departureClosedReason := by decide
    have h3 : ("" : String) ≠ departureClosedReason := by decide
    split_ifs <;> first | exact h1 | exact h2 | exact h3

/-- Witness for C4: nodup records for the stay `[0, 2)` whose last-night
record is closed to departure make the verdict the departure-closure one. -/
theorem departure_closure_rule_iff_witness :
    (([⟨0, some 100, some 1, none, false, false⟩,
       ⟨1, some 100, some 1, none, false, true⟩] :
        List NightlyRecord).map NightlyRecord.date).Nodup ∧
    ((∃ r ∈ ([⟨0, some 100, some 1, none, false, false⟩,
              ⟨1, some 100, some 1, none, false, true⟩] :
        List NightlyRecord), (r.date = 2 ∨ r.date = addDays 2 (-1)) ∧
        r.closedToDeparture = true) →
      evaluate 0 2 [⟨0, some 100, some 1, none, false, false⟩,
                    ⟨1, some 100, some 1, none, false, true⟩] =
        ⟨false, inferMinLos
            [⟨0, some 100, some 1, none, false, false⟩,
             ⟨1, some 100, some 1, none, false, true⟩]
            (arrivalRec 0 [⟨0, some 100, some 1, none, false, false⟩,
                           ⟨1, some 100, some 1, none, false, true⟩]),
          departureClosedReason⟩) ∧
    ((¬ ∃ r ∈ ([⟨0, some 100, some 1, none, false, false⟩,
                ⟨1, some 100, some 1, none, false, true⟩] :
        List NightlyRecord), (r.date = 2 ∨ r.date = addDays 2 (-1)) ∧
        r.closedToDeparture = true) →
      (evaluate 0 2 [⟨0, some 100, some 1, none, false, false⟩,
                     ⟨1, some 100, some 1, none, false, true⟩]).reason ≠
        departureClosedReason) :=
  ⟨by decide,
    departure_closure_rule_iff 0 2 _ (by decide) (by decide) (by decide)
      (by decide)⟩

theorem minStayReason_ne_empty (m : Int) : minStayReason m ≠ "" := by
  intro h
  have hlen := congrArg String.length h
  rw [minStayReason, String.length_append, String.length_append] at hlen
  have h1 : 0 < "La estadía mínima es de ".length := by decide
  have h2 : "".length = 0 := rfl
  omega

/-- C8: on every input — any dates, any record set, including records with
missing or null fields — the handler produces a well-formed verdict: an
invalid verdict always carries a non-empty reason, and the required minimum
number of nights is always at least 1. -/
theorem verdict_always_well_formed (startDate endDate : Int)
    (details : List NightlyRecord) :
    ((handlerVerdict startDate endDate details).valid = true ∨
      (handlerVerdict startDate endDate details).reason ≠ "") ∧
    1 ≤ (handlerVerdict startDate endDate details).minimumNightsRequiredToStay := by
  have hm := one_le_inferMinLos details (arrivalRec startDate details)
  simp only [handlerVerdict, evaluate]
  split_ifs <;> dsimp only <;>
    refine ⟨?_, ?_⟩ <;>
      first
        | exact Or.inl rfl
        | exact Or.inr (by decide)
        | exact Or.inr (minStayReason_ne_empty _)
        | omega

/-- C10: whenever `computeWindowTotal` accepts a plan (every validity rule
passes), the returned amount is the plan's aggregate `roomRate` when that
value is positive, and otherwise the sum of the per-night rates of the
records in the stay window. -/
theorem window_total_amount_spec (plan : RatePlan) (startDate endDate : Int)
    (h : (computeWindowTotal plan startDate endDate).ok = true) :
    (computeWindowTotal plan startDate endDate).amount =
      if 0 < jsNum plan.roomRate 0 then jsNum plan.roomRate 0
      else (priceWindow startDate endDate plan.roomRateDetailed).foldl
        (fun s d => s + jsNum d.rate 0) 0 := by
  simp only [computeWindowTotal] at h ⊢
  split_ifs at h ⊢ <;> simp_all
  linarith

/-- Witness for C10 on a plan without an aggregate rate: the accepted
two-night window is priced by summing the nightly rates. -/
theorem window_total_amount_spec_witness :
    (computeWindowTotal ⟨none, [⟨0, some 30, some 1, none, false, false⟩,
                                ⟨1, some 45, some 1, none, false, false⟩]⟩
        0 2).ok = true ∧
    (computeWindowTotal ⟨none, [⟨0, some 30, some 1, none, false, false⟩,
                                ⟨1, some 45, some 1, none, false, false⟩]⟩
        0 2).amount =
      if 0 < jsNum (none : Option ℚ) 0 then jsNum (none : Option ℚ) 0
      else (priceWindow 0 2 [⟨0, some 30, some 1, none, false, false⟩,
                             ⟨1, some 45, some 1, none, false, false⟩]).foldl
        (fun s d => s + jsNum d.rate 0) 0 :=
  ⟨by decide, window_total_amount_spec _ 0 2 (by decide)⟩

/-- C1: for every well-formed date range, the evaluator's result is exactly
the verdict of the first failing rule in the fixed order — completeness,
minimum stay, closed-to-arrival, closed-to-departure, per-night
availability, per-night rate — and the valid verdict when no rule fails;
later rules never influence the verdict once an earlier rule has failed. -/
theorem evaluate_eq_first_failing_rule (startDate endDate : Int)
    (details : List NightlyRecord)
    (_hn : 0 < diffDays startDate endDate) :
    evaluate startDate endDate details =
      specFirstFailingVerdict startDate endDate details := by
  simp only [evaluate, specFirstFailingVerdict]
  by_cases h0 : ((stayWindow startDate endDate details).length : Int) <
      diffDays startDate endDate
  · rw [if_pos h0, List.find?_cons_of_pos _ (by simpa [ruleFailB] using h0)]
    rfl
  · rw [if_neg h0, List.find?_cons_of_neg _ (by simpa [ruleFailB] using h0)]
    by_cases h1 : diffDays startDate endDate <
        inferMinLos details (arrivalRec startDate details)
    · rw [if_pos h1, List.find?_cons_of_pos _ (by simpa [ruleFailB] using h1)]
      rfl
    · rw [if_neg h1, List.find?_cons_of_neg _ (by simpa [ruleFailB] using h1)]
      by_cases h2 : ((arrivalRec startDate details).map
          NightlyRecord.closedToArrival).getD false = true
      · rw [if_pos h2, List.find?_cons_of_pos _ (by simpa [ruleFailB] using h2)]
        rfl
      · rw [if_neg h2, List.find?_cons_of_neg _
          (by simpa [ruleFailB] using h2)]
        by_cases h3 : departureFlag endDate details = true
        · rw [if_pos h3, List.find?_cons_of_pos _
            (by simpa [ruleFailB] using h3)]
          rfl
        · rw [if_neg h3, List.find?_cons_of_neg _
            (by simpa [ruleFailB] using h3)]
          by_cases h4 : (stayWindow startDate endDate details).any
              (fun d => decide (jsInt d.roomsAvailable 0 = 0)) = true
          · rw [if_pos h4, List.find?_cons_of_pos _
              (by simpa [ruleFailB] using h4)]
            rfl
          · rw [if_neg h4, List.find?_cons_of_neg _
              (by simpa [ruleFailB] using h4)]
            by_cases h5 : (stayWindow startDate endDate details).any
                (fun d => decide (jsNum d.rate 0 ≤ 0)) = true
            · rw [if_pos h5, List.find?_cons_of_pos _
                (by simpa [ruleFailB] using h5)]
              rfl
            · rw [if_neg h5, List.find?_cons_of_neg _
                (by simpa [ruleFailB] using h5), List.find?_nil]

/-- Witness for C1 at an input where several rules fail at once (short
minimum stay, closures, no availability, zero rate): the verdict equals the
first failing rule's verdict. -/
theorem evaluate_eq_first_failing_rule_witness :
    0 < diffDays 0 2 ∧
    evaluate 0 2 [⟨0, some 0, some 0, some 5, true, true⟩,
                  ⟨1, some 0, some 0, none, true, true⟩] =
      specFirstFailingVerdict 0 2
        [⟨0, some 0, some 0, some 5, true, true⟩,
         ⟨1, some 0, some 0, none, true, true⟩] :=
  ⟨by decide, evaluate_eq_first_failing_rule 0 2 _ (by decide)⟩
